import Mathlib

/-!
# node-dht-sensor: the read orchestration layer of `src/node-dht-sensor.cpp`

A shallow embedding of the native module: its process-wide variables, the
retry loops of the synchronous and the asynchronous read, the read
dispatcher and the configuration entry points, followed by theorems about
them.

Conventions of the embedding.

* `int` values are integers kept in the 32-bit two's complement range by
  `toInt`, applied wherever the source stores into an `int` or computes
  with one (`--retry`, `_max_retries - retry`, the `long` to `int`
  narrowing of the transaction status).
* A `float` is a rational, an infinity or NaN (`Reading`); the sign of zero
  is not kept.  This file only copies `float` values, except where
  `Initialize` stores a JavaScript number (a `Double`) into a `float`
  variable: that assignment rounds to single precision (`toFloat`).
  JavaScript numbers passed as sensor type, pin or retry count are integral
  (`JsValue.number`).
* `readDHT` and `initialize` come from `dht-sensor.h`; they are taken as a
  parameter (`Driver`; `initialize` is a reserved word and is written
  `initializeHw`).  They act on the variables that module defines and
  this file only reads (`last_read`, `last_temperature`, `last_humidity`)
  and on a device state of their own.  The flag `initialized` is assigned
  by this file at three places and is kept outside the driver's reach.
* A subscript outside `0..31` on one of the 32-element arrays is undefined
  behaviour; the embedding stops there with `Fault.indexOutOfRange`.
* A `Log` counts the calls of `readSensor`, `readDHT`, `initialize` and
  `usleep`, so that statements can speak of the number of transactions.
* The worker of the asynchronous read is run to completion in one step:
  `Execute`, then the completion callback.
-/

namespace DhtSensor

/-- A `float` of the source: a finite value, an infinity or NaN. -/
inductive Reading where
  | finite (q : Rat)
  | infinity (negative : Bool)
  | nan
deriving DecidableEq

/-- A JavaScript number, as `NumberValue` yields it: a `double`. A finite
one is `m * 2 ^ e`. -/
inductive Double where
  | finite (m e : Int)
  | infinity (negative : Bool)
  | nan
deriving DecidableEq

/-- The number a `double` denotes. -/
def Double.value : Double → Reading
  | .finite m e => .finite ((m : Rat) * 2 ^ e)
  | .infinity negative => .infinity negative
  | .nan => .nan

/-- The number of binary digits of `a` (`fuel` bounds the recursion and is
taken as `a`). -/
def bitLength : Nat → Nat → Nat
  | 0, _ => 0
  | fuel + 1, a => if a = 0 then 0 else bitLength fuel (a / 2) + 1

/-- The quotient `a / 2 ^ s` rounded to the nearest integer, a tie going to
the even one. -/
def roundHalfEven (a s : Nat) : Nat :=
  if 2 ^ s < 2 * (a % 2 ^ s) ∨ (2 * (a % 2 ^ s) = 2 ^ s ∧ a / 2 ^ s % 2 = 1) then a / 2 ^ s + 1
  else a / 2 ^ s

/-- The single precision significand and exponent of `a * 2 ^ e`, `a > 0`:
the exponent `q` leaves 24 binary digits, and is not below -149 (the
subnormal range); the significand is `a * 2 ^ e / 2 ^ q`, rounded. -/
def floatParts (a : Nat) (e : Int) : Nat × Int :=
  let q : Int := max ((bitLength a a : Int) - 1 + e - 23) (-149)
  (if q ≤ e then a * 2 ^ (e - q).toNat else roundHalfEven a (q - e).toNat, q)

/-- The assignment of a `double` to a `float` (lines 228 and 235): rounding
to the nearest single precision value, ties to even; a value that rounds
to `2 ^ 128` or beyond becomes an infinity. -/
def toFloat : Double → Reading
  | .nan => .nan
  | .infinity negative => .infinity negative
  | .finite m e =>
    if m = 0 then .finite 0
    else
      let r := floatParts m.natAbs e
      if 104 < r.2 ∨ (r.2 = 104 ∧ 16777216 ≤ r.1) then .infinity (decide (m < 0))
      else .finite ((if m < 0 then -1 else 1) * (r.1 : Rat) * 2 ^ r.2)

/-- Storing an integer into an `int`: 32-bit two's complement. -/
def toInt (x : Int) : Int := (x + 2147483648) % 4294967296 - 2147483648

/-- The value under the key `fake`: the two numbers, each possibly
missing. -/
structure FakeBlock where
  temperature : Option Double
  humidity : Option Double

/-- The value under the key `test`. -/
structure TestBlock where
  fake : Option FakeBlock

/-- An options object passed to `initialize`. -/
structure Options where
  test : Option TestBlock

/-- A JavaScript argument: an integral number, an options object (what
`Initialize` looks at), a function, or `undefined`. -/
inductive JsValue where
  | number (v : Int)
  | object (o : Options)
  | function
  | undefined

/-- `v->Uint32Value(ctx).ToChecked()`: a number modulo 2^32; the other
values of the embedding convert to NaN and so to 0. -/
def Uint32Value : JsValue → Int
  | .number v => v % 4294967296
  | _ => 0

/-- `Nan::To<int>(v).FromJust()`: the ToInt32 conversion. -/
def ToInt32 : JsValue → Int
  | .number v => toInt v
  | _ => 0

/-- `v->IsNumber()`. -/
def JsValue.IsNumber : JsValue → Bool
  | .number _ => true
  | _ => false

/-- `v->IsObject()`: functions are objects. -/
def JsValue.IsObject : JsValue → Bool
  | .object _ => true
  | .function => true
  | _ => false

/-- `v->ToObject(ctx)`, as far as `Initialize` uses it: only an options
object has the key `test`; the wrapper object of a number and a function
have not. (For `undefined` V8 fails the conversion; the embedding takes an
object without keys there too.) -/
def JsValue.ToObject : JsValue → Options
  | .object o => o
  | _ => ⟨none⟩

/-- `args[i]`: reading past the end of the argument list gives
`undefined`. -/
def arg (args : List JsValue) (i : Nat) : JsValue := (args.get? i).getD .undefined

/-- The variables defined by the driver module and declared `extern` here
(without `initialized`), with the driver's own device state. -/
structure Hw (δ : Type) where
  last_read : Fin 32 → Nat
  last_temperature : Fin 32 → Reading
  last_humidity : Fin 32 → Reading
  dev : δ

/-- One call of `readDHT`: the returned status and the two reference
parameters on return. -/
structure DhtResult (δ : Type) where
  status : Int
  temperature : Reading
  humidity : Reading
  hw : Hw δ

/-- The functions of `dht-sensor.h`. -/
structure Driver (δ : Type) where
  readDHT : Int → Int → Reading → Reading → Hw δ → DhtResult δ
  initializeHw : Hw δ → Int × Hw δ

/-- Call counters. -/
structure Log where
  readSensor : Nat
  readDHT : Nat
  initializeHw : Nat
  usleep : Nat
deriving DecidableEq, Repr

/-- The process-wide variables. -/
structure State (δ : Type) where
  initialized : Int
  hw : Hw δ
  _gpio_pin : Int
  _sensor_type : Int
  _max_retries : Int
  _test_fake_enabled : Bool
  _fake_temperature : Reading
  _fake_humidity : Reading
  log : Log

/-- The variables as the source initialises them (lines 16-21), over a given
driver state. -/
def State.initial {δ : Type} (hw : Hw δ) : State δ :=
  { initialized := 0, hw := hw, _gpio_pin := 4, _sensor_type := 11, _max_retries := 3,
    _test_fake_enabled := false, _fake_temperature := .finite 0, _fake_humidity := .finite 0,
    log := ⟨0, 0, 0, 0⟩ }

/-- Undefined behaviour the embedding stops at. -/
inductive Fault where
  | indexOutOfRange (i : Int)
deriving DecidableEq, Repr

/-- The subscript `a[i]` on a 32-element array. -/
def index {α : Type} (a : Fin 32 → α) (i : Int) : Except Fault α :=
  if h : 0 ≤ i ∧ i < 32 then .ok (a ⟨i.toNat, by omega⟩) else .error (.indexOutOfRange i)

/-- What a transaction leaves: status and the two reference parameters. -/
structure Tx (δ : Type) where
  status : Int
  temperature : Reading
  humidity : Reading
  state : State δ

/-- Lines 23-31. -/
def readSensor {δ : Type} (drv : Driver δ) (type pin : Int) (temperature humidity : Reading)
    (s : State δ) : Tx δ :=
  let s1 := { s with log := { s.log with readSensor := s.log.readSensor + 1 } }
  if s._test_fake_enabled then
    ⟨0, s._fake_temperature, s._fake_humidity, s1⟩
  else
    let r := drv.readDHT type pin temperature humidity s.hw
    ⟨r.status, r.temperature, r.humidity,
      { s1 with hw := r.hw, log := { s1.log with readDHT := s1.log.readDHT + 1 } }⟩

/-- The call `usleep(450000)`. -/
def usleep {δ : Type} (s : State δ) : State δ :=
  { s with log := { s.log with usleep := s.log.usleep + 1 } }

/-- The statement `initialized = initialize() == 0;` (lines 73 and 120). -/
def bringUp {δ : Type} (drv : Driver δ) (s : State δ) : State δ :=
  let r := drv.initializeHw s.hw
  { s with initialized := if r.1 = 0 then 1 else 0, hw := r.2,
           log := { s.log with initializeHw := s.log.initializeHw + 1 } }

/-- Bound on the remaining iterations of a retry loop. -/
def retryMeasure (retry : Int) : Nat :=
  if toInt retry < 0 then 2147483648 else (toInt retry).toNat

/-- The local variables of a read at the end of its retry loop. -/
structure Locals (δ : Type) where
  temperature : Reading
  humidity : Reading
  retry : Int
  result : Int
  state : State δ

/-- The loop of `ReadSync`, lines 135-139. -/
def ReadSync.loop {δ : Type} (drv : Driver δ) (sensor_type gpio_pin : Int)
    (temperature humidity : Reading) (retry : Int) (s : State δ) : Locals δ :=
  let r := readSensor drv sensor_type gpio_pin temperature humidity s
  let result := toInt r.status
  if result = 0 then ⟨r.temperature, r.humidity, retry, result, r.state⟩
  else if h : toInt (retry - 1) < 0 then
    ⟨r.temperature, r.humidity, toInt (retry - 1), result, r.state⟩
  else
    ReadSync.loop drv sensor_type gpio_pin r.temperature r.humidity (toInt (retry - 1))
      (usleep r.state)
termination_by retryMeasure retry
decreasing_by
  unfold retryMeasure toInt at *
  split <;> split <;> omega

/-- What a call of `read` hands back to JavaScript. `readout` is the object
returned by the synchronous read, `callback` the three arguments
`HandleOKCallback` passes to the completion handler, `callbackError` the
single `Error` that `Nan::AsyncWorker` passes when `SetErrorMessage` was
called. -/
inductive Outcome where
  | readout (temperature humidity : Reading) (isValid : Bool) (errors : Int)
  | throwTypeError (msg : String)
  | callback (error : Option String) (temperature humidity : Reading)
  | callbackError (msg : String)
deriving DecidableEq

/-- Lines 131-147 of `ReadSync`: seed from the per-pin arrays, run the
loop, build the readout. -/
def ReadSync.retry {δ : Type} (drv : Driver δ) (sensor_type gpio_pin : Int) (s : State δ) :
    Except Fault (Outcome × State δ) :=
  match index s.hw.last_temperature gpio_pin, index s.hw.last_humidity gpio_pin with
  | .ok temperature, .ok humidity =>
    let l := ReadSync.loop drv sensor_type gpio_pin temperature humidity s._max_retries s
    .ok (.readout l.temperature l.humidity (decide (l.result = 0))
          (toInt (l.state._max_retries - l.retry)), l.state)
  | .error f, _ => .error f
  | _, .error f => .error f

/-- Lines 104-148. -/
def ReadSync {δ : Type} (drv : Driver δ) (args : List JsValue) (s : State δ) :
    Except Fault (Outcome × State δ) :=
  if args.length = 2 then
    let gpio_pin := toInt (Uint32Value (arg args 1))
    let sensor_type := toInt (Uint32Value (arg args 0))
    if sensor_type ≠ 11 ∧ sensor_type ≠ 22 then
      .ok (.throwTypeError "specified sensor type is invalid", s)
    else if s.initialized = 0 then
      let s1 := bringUp drv s
      if s1.initialized = 0 then .ok (.throwTypeError "failed to initialize", s1)
      else ReadSync.retry drv sensor_type gpio_pin s1
    else ReadSync.retry drv sensor_type gpio_pin s
  else ReadSync.retry drv s._sensor_type s._gpio_pin s

/-- The members of `ReadWorker` (lines 64-69), with the error message of
`Nan::AsyncWorker`. -/
structure ReadWorker where
  sensor_type : Int
  gpio_pin : Int
  failed : Bool
  temperature : Reading
  humidity : Reading
  errmsg : Option String
deriving DecidableEq

/-- The constructor, lines 35-37, with the member initialisers. -/
def ReadWorker.new (sensor_type gpio_pin : Int) : ReadWorker :=
  { sensor_type := sensor_type, gpio_pin := gpio_pin, failed := false,
    temperature := .finite 0, humidity := .finite 0, errmsg := none }

/-- Lines 71-75. -/
def ReadWorker.Init {δ : Type} (drv : Driver δ) (s : State δ) : State δ :=
  if s.initialized = 0 then bringUp drv s else s

/-- The loop of `ReadWorker::Read`, lines 87-91; it works on the members
`temperature` and `humidity` and returns `result` with them. -/
def ReadWorker.Read.loop {δ : Type} (drv : Driver δ) (w : ReadWorker) (retry : Int)
    (s : State δ) : ReadWorker × Int × State δ :=
  let r := readSensor drv w.sensor_type w.gpio_pin w.temperature w.humidity s
  let w1 := { w with temperature := r.temperature, humidity := r.humidity }
  let result := toInt r.status
  if result = 0 then (w1, result, r.state)
  else if h : toInt (retry - 1) < 0 then (w1, result, r.state)
  else ReadWorker.Read.loop drv w1 (toInt (retry - 1)) (usleep r.state)
termination_by retryMeasure retry
decreasing_by
  unfold retryMeasure toInt at *
  split <;> split <;> omega

/-- Lines 77-93. -/
def ReadWorker.Read {δ : Type} (drv : Driver δ) (w : ReadWorker) (s : State δ) :
    Except Fault (ReadWorker × State δ) :=
  if w.sensor_type ≠ 11 ∧ w.sensor_type ≠ 22 then
    .ok ({ w with errmsg := some "sensor type is invalid" }, s)
  else
    match index s.hw.last_temperature w.gpio_pin, index s.hw.last_humidity w.gpio_pin with
    | .ok temperature, .ok humidity =>
      let l := ReadWorker.Read.loop drv { w with temperature := temperature, humidity := humidity }
        s._max_retries s
      .ok ({ l.1 with failed := decide (l.2.1 ≠ 0) }, l.2.2)
    | .error f, _ => .error f
    | _, .error f => .error f

/-- Lines 39-44; the lock is not part of the embedding. -/
def ReadWorker.Execute {δ : Type} (drv : Driver δ) (w : ReadWorker) (s : State δ) :
    Except Fault (ReadWorker × State δ) :=
  ReadWorker.Read drv w (ReadWorker.Init drv s)

/-- Lines 46-62. -/
def ReadWorker.HandleOKCallback {δ : Type} (w : ReadWorker) (s : State δ) : Outcome :=
  .callback
    (if s.initialized = 0 then some "failed to initialize sensor"
     else if w.failed then some "failed to read sensor"
     else none)
    w.temperature w.humidity

/-- Lines 96-102, with the queued worker run to completion:
`Nan::AsyncWorker` calls `HandleErrorCallback` when an error message was
set and `HandleOKCallback` otherwise. -/
def ReadAsync {δ : Type} (drv : Driver δ) (args : List JsValue) (s : State δ) :
    Except Fault (Outcome × State δ) :=
  let sensor_type := ToInt32 (arg args 0)
  let gpio_pin := ToInt32 (arg args 1)
  match ReadWorker.Execute drv (ReadWorker.new sensor_type gpio_pin) s with
  | .error f => .error f
  | .ok (w, s1) =>
    match w.errmsg with
    | some msg => .ok (.callbackError msg, s1)
    | none => .ok (ReadWorker.HandleOKCallback w s1, s1)

/-- Lines 150-164. -/
def Read {δ : Type} (drv : Driver δ) (args : List JsValue) (s : State δ) :
    Except Fault (Outcome × State δ) :=
  match args.length with
  | 0 => ReadSync drv args s
  | 2 => ReadSync drv args s
  | 3 => ReadAsync drv args s
  | _ => .ok (.throwTypeError "invalid number of arguments", s)

/-- Lines 166-172: the exception thrown, if any, and the variables. -/
def SetMaxRetries {δ : Type} (args : List JsValue) (s : State δ) : Option String × State δ :=
  if args.length ≠ 1 then (some "Wrong number of arguments", s)
  else (none, { s with _max_retries := toInt (Uint32Value (arg args 0)) })

/-- Lines 174-198. -/
def LegacyInitialization {δ : Type} (args : List JsValue) (s : State δ) :
    Option String × State δ :=
  if !(arg args 0).IsNumber || !(arg args 1).IsNumber then (some "Invalid arguments", s)
  else
    let sensor_type := toInt (Uint32Value (arg args 0))
    if sensor_type ≠ 11 ∧ sensor_type ≠ 22 then
      (some "Specified sensor type is not supported", s)
    else
      let s1 := { s with _sensor_type := sensor_type,
                         _gpio_pin := toInt (Uint32Value (arg args 1)) }
      if args.length ≥ 3 then
        if !(arg args 2).IsNumber then (some "Invalid maxRetries parameter", s1)
        else (none, { s1 with _max_retries := toInt (Uint32Value (arg args 2)) })
      else (none, s1)

/-- What `Initialize` leaves besides the variables: the exceptions it threw,
in order, and the value it set as return value. -/
structure InitReturn where
  thrown : List String
  returnValue : Option Bool
deriving DecidableEq

/-- Lines 212-240 of `Initialize`: the test block of the options object.
The two numbers are `double` values and are stored in `float` variables,
which rounds them (`toFloat`). -/
def Initialize.options {δ : Type} (options : Options) (s : State δ) : List String × State δ :=
  match options.test with
  | none => ([], s)
  | some testKey =>
    let s1 := { s with initialized := 1 }
    match testKey.fake with
    | none => ([], s1)
    | some fakeKey =>
      let s2 := { s1 with _test_fake_enabled := true }
      let t : List String × State δ :=
        match fakeKey.temperature with
        | some temp => ([], { s2 with _fake_temperature := toFloat temp })
        | none => (["Test mode: temperature value must be defined for a fake"], s2)
      match fakeKey.humidity with
      | some humidity => (t.1, { t.2 with _fake_humidity := toFloat humidity })
      | none => (t.1 ++ ["Test mode: humidity value must be defined for a fake"], t.2)

/-- Lines 200-241. With more than one argument the function runs
`LegacyInitialization`, sets the result of `initialize()` as return value
and goes on to line 212 (there is no `return` on that branch).
`Nan::ThrowTypeError` and `Nan::ThrowError` only schedule the exception:
the function goes on unless it returns, and the exceptions are listed in
the order thrown. -/
def Initialize {δ : Type} (drv : Driver δ) (args : List JsValue) (s : State δ) :
    InitReturn × State δ :=
  if args.length < 1 then (⟨["Wrong number of arguments"], none⟩, s)
  else if args.length > 1 then
    let l := LegacyInitialization args s
    let r := drv.initializeHw l.2.hw
    let s1 := { l.2 with hw := r.2,
                         log := { l.2.log with initializeHw := l.2.log.initializeHw + 1 } }
    let o := Initialize.options (arg args 0).ToObject s1
    (⟨l.1.toList ++ o.1, some (decide (r.1 = 0))⟩, o.2)
  else if !(arg args 0).IsObject then
    (⟨["Invalid argument: an object is expected"], none⟩, s)
  else
    let o := Initialize.options (arg args 0).ToObject s
    (⟨o.1, none⟩, o.2)

/-- The transaction number `i` (from 0) of a retry loop that starts with
the reference parameters `temperature`, `humidity` in state `s`, when all
transactions before it are followed by the 450 ms wait. -/
def attempt {δ : Type} (drv : Driver δ) (type pin : Int) :
    Nat → Reading → Reading → State δ → Tx δ
  | 0, temperature, humidity, s => readSensor drv type pin temperature humidity s
  | i + 1, temperature, humidity, s =>
    let r := readSensor drv type pin temperature humidity s
    attempt drv type pin i r.temperature r.humidity (usleep r.state)


/-- The assignment `a[i] = v` on a 32-element array, for `i` in range. -/
def store {α : Type} (a : Fin 32 → α) (i : Int) (v : α) : Fin 32 → α :=
  fun j => if (j.val : Int) = i then v else a j

/-- A driver to instantiate the statements with. Its device state is a pair
of counters: the transactions that will still fail and the bring-ups that
will still fail. A failing transaction returns -1 and leaves its reference
parameters alone; a successful one reads 22.0 / 55.0 and stores them for
the pin. -/
def mockDriver : Driver (Nat × Nat) where
  readDHT := fun _ pin temperature humidity hw =>
    match hw.dev.1 with
    | 0 => ⟨0, .finite 22, .finite 55,
        { hw with last_temperature := store hw.last_temperature pin (.finite 22),
                  last_humidity := store hw.last_humidity pin (.finite 55) }⟩
    | d + 1 => ⟨-1, temperature, humidity, { hw with dev := (d, hw.dev.2) }⟩
  initializeHw := fun hw =>
    match hw.dev.2 with
    | 0 => (0, hw)
    | d + 1 => (1, { hw with dev := (hw.dev.1, d) })

/-- A driver whose transactions always fail with -1 and touch nothing;
its bring-up succeeds. -/
def failingDriver : Driver Unit where
  readDHT := fun _ _ temperature humidity hw => ⟨-1, temperature, humidity, hw⟩
  initializeHw := fun hw => (0, hw)

/-- Driver variables with all arrays zero, as static storage starts. -/
def Hw.zero {δ : Type} (dev : δ) : Hw δ :=
  { last_read := fun _ => 0, last_temperature := fun _ => .finite 0,
    last_humidity := fun _ => .finite 0, dev := dev }

/-- A read call that names sensor type and pin, in its two forms. -/
inductive ReadCall where
  | sync (sensor_type gpio_pin : JsValue)
  | async (sensor_type gpio_pin callback : JsValue)

/-- The argument list of a read call. -/
def ReadCall.args : ReadCall → List JsValue
  | .sync a b => [a, b]
  | .async a b c => [a, b, c]

/-- The variables after a sequence of read calls, one after the other. -/
def runCalls {δ : Type} (drv : Driver δ) : List ReadCall → State δ → Except Fault (State δ)
  | [], s => .ok s
  | c :: cs, s =>
    match Read drv c.args s with
    | .error f => .error f
    | .ok r => runCalls drv cs r.2

section Lemmas

variable {δ : Type} (drv : Driver δ)

theorem toInt_of_range (x : Int) (h1 : -2147483648 ≤ x) (h2 : x < 2147483648) :
    toInt x = x := by
  unfold toInt; omega

theorem toInt_Uint32Value (a : JsValue) : toInt (Uint32Value a) = ToInt32 a := by
  cases a <;> simp [Uint32Value, ToInt32, toInt]

theorem loops_agree (w : ReadWorker) (retry : Int) (s : State δ) :
    ReadWorker.Read.loop drv w retry s =
      ({ w with
          temperature :=
            (ReadSync.loop drv w.sensor_type w.gpio_pin w.temperature w.humidity retry s).temperature,
          humidity :=
            (ReadSync.loop drv w.sensor_type w.gpio_pin w.temperature w.humidity retry s).humidity },
        (ReadSync.loop drv w.sensor_type w.gpio_pin w.temperature w.humidity retry s).result,
        (ReadSync.loop drv w.sensor_type w.gpio_pin w.temperature w.humidity retry s).state) := by
  induction w, retry, s using ReadWorker.Read.loop.induct drv with
  | case1 w retry s r result h0 =>
    rw [ReadWorker.Read.loop, ReadSync.loop]
    simp only [r, result] at h0
    simp [h0]
  | case2 w retry s r result h0 h1 =>
    rw [ReadWorker.Read.loop, ReadSync.loop]
    simp only [r, result] at h0
    simp [h0, h1]
  | case3 w retry s r w1 result h0 h1 ih =>
    rw [ReadWorker.Read.loop, ReadSync.loop]
    simp only [r, result] at h0
    simp only [h0, h1, if_false, dite_false, ↓reduceIte, ↓reduceDIte]
    rw [ih]

theorem loop_succeeds (type pin : Int) (k : Nat) :
    ∀ (retry : Int) (t h : Reading) (s : State δ), (k : Int) ≤ retry → retry < 2147483648 →
      (∀ i, i < k → toInt (attempt drv type pin i t h s).status ≠ 0) →
      toInt (attempt drv type pin k t h s).status = 0 →
      ReadSync.loop drv type pin t h retry s =
        ⟨(attempt drv type pin k t h s).temperature, (attempt drv type pin k t h s).humidity,
          retry - k, 0, (attempt drv type pin k t h s).state⟩ := by
  induction k with
  | zero =>
    intro retry t h s _ _ _ hs
    rw [ReadSync.loop]
    simp only [attempt] at hs ⊢
    simp [hs]
  | succ k ih =>
    intro retry t h s hk hr hf hs
    have h0 := hf 0 (by omega)
    simp only [attempt] at h0
    have hw : toInt (retry - 1) = retry - 1 := toInt_of_range _ (by omega) (by omega)
    rw [ReadSync.loop]
    simp only [h0, hw, if_false, dite_false, ↓reduceIte, ↓reduceDIte]
    have hneg : ¬ (retry - 1 < 0) := by omega
    simp only [hneg, dite_false, ↓reduceDIte]
    rw [ih (retry - 1) _ _ _ (by omega) (by omega)
      (fun i hi => by have := hf (i + 1) (by omega); simpa [attempt] using this)
      (by simpa [attempt] using hs)]
    simp only [attempt]
    congr 1
    push_cast
    ring


theorem loop_exhausts (type pin : Int) (n : Nat) :
    ∀ (t h : Reading) (s : State δ), n < 2147483648 →
      (∀ i, i ≤ n → toInt (attempt drv type pin i t h s).status ≠ 0) →
      ReadSync.loop drv type pin t h n s =
        ⟨(attempt drv type pin n t h s).temperature, (attempt drv type pin n t h s).humidity,
          -1, toInt (attempt drv type pin n t h s).status,
          (attempt drv type pin n t h s).state⟩ := by
  induction n with
  | zero =>
    intro t h s _ hf
    have h0 := hf 0 (by omega)
    simp only [attempt] at h0
    rw [ReadSync.loop]
    simp only [attempt]
    have hw : toInt (-1) = -1 := by decide
    simp [h0, hw]
  | succ n ih =>
    intro t h s hn hf
    have h0 := hf 0 (by omega)
    simp only [attempt] at h0
    have hw : toInt (((n + 1 : Nat) : Int) - 1) = (n : Int) := by
      rw [toInt_of_range _ (by omega) (by omega)]; push_cast; ring
    rw [ReadSync.loop]
    have hneg : ¬ ((n : Int) < 0) := by omega
    simp only [h0, hw, hneg, if_false, dite_false, ↓reduceIte, ↓reduceDIte]
    rw [ih _ _ _ (by omega)
      (fun i hi => by have := hf (i + 1) (by omega); simpa [attempt] using this)]
    simp only [attempt]

/-- Every run of the loop ends on some transaction `k`, all transactions
before it having failed. -/
theorem loop_ends (type pin : Int) (t h : Reading) (retry : Int) (s : State δ) :
    ∃ k : Nat, (∀ i, i < k → toInt (attempt drv type pin i t h s).status ≠ 0) ∧
      (ReadSync.loop drv type pin t h retry s).temperature
        = (attempt drv type pin k t h s).temperature ∧
      (ReadSync.loop drv type pin t h retry s).humidity
        = (attempt drv type pin k t h s).humidity ∧
      (ReadSync.loop drv type pin t h retry s).result
        = toInt (attempt drv type pin k t h s).status ∧
      (ReadSync.loop drv type pin t h retry s).state = (attempt drv type pin k t h s).state := by
  induction t, h, retry, s using ReadSync.loop.induct drv type pin with
  | case1 t h retry s r result h0 =>
    refine ⟨0, fun i hi => by omega, ?_⟩
    rw [ReadSync.loop]
    simp only [r, result] at h0
    simp [h0, attempt]
  | case2 t h retry s r result h0 h1 =>
    refine ⟨0, fun i hi => by omega, ?_⟩
    rw [ReadSync.loop]
    simp only [r, result] at h0
    simp [h0, h1, attempt]
  | case3 t h retry s r result h0 h1 ih =>
    obtain ⟨k, hk, e1, e2, e3, e4⟩ := ih
    refine ⟨k + 1, ?_, ?_⟩
    · intro i hi
      cases i with
      | zero => simpa [attempt, r, result] using h0
      | succ i => simpa [attempt] using hk i (by omega)
    · rw [ReadSync.loop]
      simp only [r, result] at h0
      simp only [h0, h1, if_false, dite_false, ↓reduceIte, ↓reduceDIte, attempt]
      exact ⟨e1, e2, e3, e4⟩

/-- A transaction changes neither the flag nor the configuration, and calls
no bring-up. -/
theorem readSensor_frame (type pin : Int) (t h : Reading) (s : State δ) :
    (readSensor drv type pin t h s).state.initialized = s.initialized ∧
    (readSensor drv type pin t h s).state._gpio_pin = s._gpio_pin ∧
    (readSensor drv type pin t h s).state._sensor_type = s._sensor_type ∧
    (readSensor drv type pin t h s).state._max_retries = s._max_retries ∧
    (readSensor drv type pin t h s).state._test_fake_enabled = s._test_fake_enabled ∧
    (readSensor drv type pin t h s).state._fake_temperature = s._fake_temperature ∧
    (readSensor drv type pin t h s).state._fake_humidity = s._fake_humidity ∧
    (readSensor drv type pin t h s).state.log.initializeHw = s.log.initializeHw ∧
    (readSensor drv type pin t h s).state.log.readSensor = s.log.readSensor + 1 := by
  unfold readSensor
  split <;> simp

theorem attempt_frame (type pin : Int) (k : Nat) :
    ∀ (t h : Reading) (s : State δ),
    (attempt drv type pin k t h s).state.initialized = s.initialized ∧
    (attempt drv type pin k t h s).state._gpio_pin = s._gpio_pin ∧
    (attempt drv type pin k t h s).state._sensor_type = s._sensor_type ∧
    (attempt drv type pin k t h s).state._max_retries = s._max_retries ∧
    (attempt drv type pin k t h s).state._test_fake_enabled = s._test_fake_enabled ∧
    (attempt drv type pin k t h s).state._fake_temperature = s._fake_temperature ∧
    (attempt drv type pin k t h s).state._fake_humidity = s._fake_humidity ∧
    (attempt drv type pin k t h s).state.log.initializeHw = s.log.initializeHw ∧
    (attempt drv type pin k t h s).state.log.readSensor = s.log.readSensor + (k + 1) := by
  induction k with
  | zero =>
    intro t h s
    simpa [attempt] using readSensor_frame drv type pin t h s
  | succ k ih =>
    intro t h s
    obtain ⟨a1, a2, a3, a4, a5, a6, a7, a8, a9⟩ := readSensor_frame drv type pin t h s
    obtain ⟨b1, b2, b3, b4, b5, b6, b7, b8, b9⟩ :=
      ih (readSensor drv type pin t h s).temperature (readSensor drv type pin t h s).humidity
        (usleep (readSensor drv type pin t h s).state)
    simp only [attempt]
    refine ⟨b1.trans a1, b2.trans a2, b3.trans a3, b4.trans a4, b5.trans a5, b6.trans a6,
      b7.trans a7, b8.trans a8, ?_⟩
    have b9' : _ = (readSensor drv type pin t h s).state.log.readSensor + (k + 1) := b9
    rw [b9', a9]; omega


theorem index_fin {α : Type} (a : Fin 32 → α) (p : Fin 32) :
    index a (p.val : Int) = .ok (a p) := by
  have h : 0 ≤ (p.val : Int) ∧ (p.val : Int) < 32 := ⟨by omega, by omega⟩
  simp [index, h]

theorem toInt_Uint32Value_fin (p : Fin 32) :
    toInt (Uint32Value (.number (p.val : Int))) = (p.val : Int) := by
  rw [toInt_Uint32Value]
  exact toInt_of_range _ (by omega) (by omega)

theorem ToInt32_fin (p : Fin 32) : ToInt32 (.number (p.val : Int)) = (p.val : Int) :=
  toInt_of_range _ (by omega) (by omega)

theorem ToInt32_type (type : Int) (htype : type = 11 ∨ type = 22) :
    ToInt32 (.number type) = type := by
  rcases htype with h | h <;> subst h <;> decide

/-- The two-argument synchronous read, past the argument conversions and
the sensor type check. -/
theorem ReadSync_two (type : Int) (htype : type = 11 ∨ type = 22) (p : Fin 32) (s : State δ) :
    ReadSync drv [.number type, .number (p.val : Int)] s =
      if s.initialized = 0 then
        if (bringUp drv s).initialized = 0 then
          .ok (.throwTypeError "failed to initialize", bringUp drv s)
        else ReadSync.retry drv type (p.val : Int) (bringUp drv s)
      else ReadSync.retry drv type (p.val : Int) s := by
  have h1 : toInt (Uint32Value (.number type)) = type := by
    rw [toInt_Uint32Value]; exact ToInt32_type type htype
  have h2 : ¬ (type ≠ 11 ∧ type ≠ 22) := by omega
  simp only [ReadSync, arg, List.length_cons, List.length_nil, List.get?, Option.getD,
    toInt_Uint32Value_fin, h1, h2, if_false, ↓reduceIte]

/-- The retry part of the synchronous read, in terms of the loop. -/
theorem retry_fin (type : Int) (p : Fin 32) (s : State δ) :
    ReadSync.retry drv type (p.val : Int) s =
      .ok (.readout
        (ReadSync.loop drv type p.val (s.hw.last_temperature p) (s.hw.last_humidity p)
          s._max_retries s).temperature
        (ReadSync.loop drv type p.val (s.hw.last_temperature p) (s.hw.last_humidity p)
          s._max_retries s).humidity
        (decide ((ReadSync.loop drv type p.val (s.hw.last_temperature p) (s.hw.last_humidity p)
          s._max_retries s).result = 0))
        (toInt ((ReadSync.loop drv type p.val (s.hw.last_temperature p) (s.hw.last_humidity p)
          s._max_retries s).state._max_retries -
          (ReadSync.loop drv type p.val (s.hw.last_temperature p) (s.hw.last_humidity p)
            s._max_retries s).retry)),
        (ReadSync.loop drv type p.val (s.hw.last_temperature p) (s.hw.last_humidity p)
          s._max_retries s).state) := by
  simp only [ReadSync.retry, index_fin]

/-- The transactions of `failingDriver` all return -1 and hand back the
reference parameters they were given. -/
theorem failingDriver_attempt (type pin : Int) (i : Nat) :
    ∀ (t h : Reading) (s : State Unit), s._test_fake_enabled = false →
      (attempt failingDriver type pin i t h s).status = -1 ∧
      (attempt failingDriver type pin i t h s).temperature = t ∧
      (attempt failingDriver type pin i t h s).humidity = h := by
  induction i with
  | zero =>
    intro t h s hs
    simp [attempt, readSensor, hs, failingDriver]
  | succ i ih =>
    intro t h s hs
    have hr : (readSensor failingDriver type pin t h s).temperature = t ∧
        (readSensor failingDriver type pin t h s).humidity = h := by
      simp [readSensor, hs, failingDriver]
    have hf : (usleep (readSensor failingDriver type pin t h s).state)._test_fake_enabled
        = false := (readSensor_frame failingDriver type pin t h s).2.2.2.2.1.trans hs
    have := ih (readSensor failingDriver type pin t h s).temperature
      (readSensor failingDriver type pin t h s).humidity _ hf
    simp only [attempt]
    rw [hr.1, hr.2] at this
    rw [hr.1, hr.2]
    exact this

/-- The loop over `failingDriver` runs out of retries and keeps the values
it was seeded with. -/
theorem failingDriver_loop (type pin : Int) (n : Nat) :
    ∀ (t h : Reading) (s : State Unit), s._test_fake_enabled = false → n < 2147483648 →
      (ReadSync.loop failingDriver type pin t h n s).temperature = t ∧
      (ReadSync.loop failingDriver type pin t h n s).humidity = h ∧
      (ReadSync.loop failingDriver type pin t h n s).retry = -1 ∧
      (ReadSync.loop failingDriver type pin t h n s).result = -1 ∧
      (ReadSync.loop failingDriver type pin t h n s).state._max_retries = s._max_retries := by
  intro t h s hs hn
  have hf : ∀ i, i ≤ n → toInt (attempt failingDriver type pin i t h s).status ≠ 0 := by
    intro i _
    rw [(failingDriver_attempt type pin i t h s hs).1]
    decide
  rw [loop_exhausts failingDriver type pin n t h s hn hf]
  obtain ⟨a1, a2, a3⟩ := failingDriver_attempt type pin n t h s hs
  refine ⟨a2, a3, rfl, ?_, (attempt_frame failingDriver type pin n t h s).2.2.2.1⟩
  show toInt (attempt failingDriver type pin n t h s).status = -1
  rw [a1]
  decide

/-- With the fake override on, the retry part makes one call of
`readSensor`, no call of `readDHT`, and returns the fake values. -/
theorem retry_fake (type : Int) (p : Fin 32) (s : State δ) (hfake : s._test_fake_enabled = true) :
    ReadSync.retry drv type (p.val : Int) s =
      .ok (.readout s._fake_temperature s._fake_humidity true 0,
        { s with log := { s.log with readSensor := s.log.readSensor + 1 } }) := by
  rw [retry_fin, ReadSync.loop]
  have h0 : toInt (0 : Int) = 0 := by decide
  simp [readSensor, hfake, h0]

/-- The three-argument read, past the argument conversions. -/
theorem Read_three (type : Int) (htype : type = 11 ∨ type = 22) (p : Fin 32) (cb : JsValue)
    (s : State δ) :
    Read drv [.number type, .number (p.val : Int), cb] s =
      match ReadWorker.Read drv (ReadWorker.new type (p.val : Int)) (ReadWorker.Init drv s) with
      | .error f => .error f
      | .ok (w, s1) =>
        match w.errmsg with
        | some msg => .ok (.callbackError msg, s1)
        | none => .ok (ReadWorker.HandleOKCallback w s1, s1) := by
  simp only [Read, ReadAsync, ReadWorker.Execute, arg, List.length_cons, List.length_nil,
    List.get?, Option.getD, ToInt32_fin, ToInt32_type type htype]

/-- The worker's read on a supported sensor type, in terms of the loop of
the synchronous read. -/
theorem worker_Read (type : Int) (htype : type = 11 ∨ type = 22) (p : Fin 32) (s : State δ) :
    ReadWorker.Read drv (ReadWorker.new type (p.val : Int)) s =
      .ok ({ sensor_type := type, gpio_pin := (p.val : Int),
             failed := decide ((ReadSync.loop drv type p.val (s.hw.last_temperature p)
               (s.hw.last_humidity p) s._max_retries s).result ≠ 0),
             temperature := (ReadSync.loop drv type p.val (s.hw.last_temperature p)
               (s.hw.last_humidity p) s._max_retries s).temperature,
             humidity := (ReadSync.loop drv type p.val (s.hw.last_temperature p)
               (s.hw.last_humidity p) s._max_retries s).humidity,
             errmsg := none },
        (ReadSync.loop drv type p.val (s.hw.last_temperature p) (s.hw.last_humidity p)
          s._max_retries s).state) := by
  have h2 : ¬ (type ≠ 11 ∧ type ≠ 22) := by omega
  simp only [ReadWorker.Read, ReadWorker.new, h2, if_false, ↓reduceIte, index_fin, loops_agree]

/-- The retry part of the synchronous read leaves the flag alone and calls
no bring-up. -/
theorem retry_frame (type pin : Int) (s : State δ) (r : Outcome × State δ)
    (h : ReadSync.retry drv type pin s = .ok r) :
    r.2.initialized = s.initialized ∧ r.2.log.initializeHw = s.log.initializeHw := by
  unfold ReadSync.retry at h
  split at h
  · rename_i t hu _ _
    obtain ⟨k, _, _, _, _, hk⟩ := loop_ends drv type pin t hu s._max_retries s
    injection h with h
    subst h
    have hf := attempt_frame drv type pin k t hu s
    exact ⟨hk ▸ hf.1, hk ▸ hf.2.2.2.2.2.2.2.1⟩
  · cases h
  · cases h

/-- The worker's read leaves the flag alone and calls no bring-up. -/
theorem worker_Read_frame (w : ReadWorker) (s : State δ) (r : ReadWorker × State δ)
    (h : ReadWorker.Read drv w s = .ok r) :
    r.2.initialized = s.initialized ∧ r.2.log.initializeHw = s.log.initializeHw := by
  unfold ReadWorker.Read at h
  split at h
  · injection h with h
    subst h
    exact ⟨rfl, rfl⟩
  · split at h
    · rename_i t hu _ _
      obtain ⟨k, _, _, _, _, hk⟩ :=
        loop_ends drv w.sensor_type w.gpio_pin t hu s._max_retries s
      injection h with h
      subst h
      have hf := attempt_frame drv w.sensor_type w.gpio_pin k t hu s
      simp only [loops_agree]
      exact ⟨hk ▸ hf.1, hk ▸ hf.2.2.2.2.2.2.2.1⟩
    · cases h
    · cases h

theorem bringUp_frame (s : State δ) :
    (bringUp drv s).initialized = (if (drv.initializeHw s.hw).1 = 0 then 1 else 0) ∧
    (bringUp drv s).log.initializeHw = s.log.initializeHw + 1 := ⟨rfl, rfl⟩

/-- What one read call does to the flag and to the bring-up counter. -/
theorem call_frame (c : ReadCall) (s : State δ) (r : Outcome × State δ)
    (h : Read drv c.args s = .ok r) :
    (s.initialized ≠ 0 →
      r.2.log.initializeHw = s.log.initializeHw ∧ r.2.initialized = s.initialized) ∧
    (s.initialized = 0 →
      (r.2.log.initializeHw = s.log.initializeHw ∧ r.2.initialized = 0) ∨
      (r.2.log.initializeHw = s.log.initializeHw + 1 ∧
        r.2.initialized = (if (drv.initializeHw s.hw).1 = 0 then 1 else 0))) := by
  cases c with
  | sync a b =>
    have hr : Read drv (ReadCall.sync a b).args s = ReadSync drv [a, b] s := rfl
    rw [hr] at h
    simp only [ReadSync, List.length_cons, List.length_nil, ↓reduceIte] at h
    split at h
    · injection h with h
      subst h
      exact ⟨fun _ => ⟨rfl, rfl⟩, fun h0 => Or.inl ⟨rfl, h0⟩⟩
    · split at h
      · rename_i h0
        split at h
        · rename_i hb
          injection h with h
          subst h
          refine ⟨fun hn => absurd h0 hn, fun _ => Or.inr ⟨rfl, ?_⟩⟩
          exact (bringUp_frame drv s).1
        · have hf := retry_frame drv _ _ _ r h
          refine ⟨fun hn => absurd h0 hn, fun _ => Or.inr ⟨?_, ?_⟩⟩
          · rw [hf.2]; rfl
          · rw [hf.1]; rfl
      · rename_i h0
        have hf := retry_frame drv _ _ _ r h
        exact ⟨fun _ => ⟨hf.2, hf.1⟩, fun hz => absurd hz h0⟩
  | async a b cb =>
    have hr : Read drv (ReadCall.async a b cb).args s = ReadAsync drv [a, b, cb] s := rfl
    rw [hr] at h
    simp only [ReadAsync, ReadWorker.Execute] at h
    split at h
    · cases h
    · rename_i w s1 hw
      have hf := worker_Read_frame drv _ _ _ hw
      have hs : r.2 = s1 := by
        split at h <;> (injection h with h; subst h; rfl)
      rw [hs]
      simp only [ReadWorker.Init] at hf
      refine ⟨fun hn => ?_, fun hz => Or.inr ?_⟩
      · rw [if_neg hn] at hf
        exact ⟨hf.2, hf.1⟩
      · rw [if_pos hz] at hf
        exact ⟨hf.2, hf.1⟩

/-- Once the flag is set, a sequence of read calls leaves it set and calls
no bring-up. -/
theorem runCalls_frame (cs : List ReadCall) :
    ∀ (s s2 : State δ), s.initialized ≠ 0 → runCalls drv cs s = .ok s2 →
      s2.log.initializeHw = s.log.initializeHw ∧ s2.initialized = s.initialized := by
  induction cs with
  | nil =>
    intro s s2 _ h
    injection h with h
    subst h
    exact ⟨rfl, rfl⟩
  | cons c cs ih =>
    intro s s2 hs h
    simp only [runCalls] at h
    split at h
    · cases h
    · rename_i r hr
      have hc := (call_frame drv c s r hr).1 hs
      have := ih r.2 s2 (by rw [hc.2]; exact hs) h
      exact ⟨this.1.trans hc.1, this.2.trans hc.2⟩

/-- The two-argument read when the hardware is initialized and the first
transaction succeeds. -/
theorem Read_two_first_ok (type : Int) (htype : type = 11 ∨ type = 22) (p : Fin 32)
    (s : State δ) (hinit : s.initialized ≠ 0)
    (hok : toInt (readSensor drv type p.val (s.hw.last_temperature p) (s.hw.last_humidity p)
      s).status = 0) :
    Read drv [.number type, .number (p.val : Int)] s =
      .ok (.readout
        (readSensor drv type p.val (s.hw.last_temperature p) (s.hw.last_humidity p) s).temperature
        (readSensor drv type p.val (s.hw.last_temperature p) (s.hw.last_humidity p) s).humidity
        true 0,
        (readSensor drv type p.val (s.hw.last_temperature p) (s.hw.last_humidity p) s).state) := by
  have hr : Read drv [.number type, .number (p.val : Int)] s =
      ReadSync drv [.number type, .number (p.val : Int)] s := rfl
  have hf := (readSensor_frame drv type p.val (s.hw.last_temperature p) (s.hw.last_humidity p)
    s).2.2.2.1
  rw [hr, ReadSync_two drv type htype p s, if_neg hinit, retry_fin, ReadSync.loop]
  simp only [hok, ↓reduceIte, decide_True, hf, sub_self]
  rfl

/-- The three-argument read when the first transaction succeeds. -/
theorem Read_three_first_ok (type : Int) (htype : type = 11 ∨ type = 22) (p : Fin 32)
    (cb : JsValue) (s e : State δ) (he : ReadWorker.Init drv s = e)
    (hok : toInt (readSensor drv type p.val (e.hw.last_temperature p) (e.hw.last_humidity p)
      e).status = 0) :
    Read drv [.number type, .number (p.val : Int), cb] s =
      .ok (.callback (if e.initialized = 0 then some "failed to initialize sensor" else none)
        (readSensor drv type p.val (e.hw.last_temperature p) (e.hw.last_humidity p) e).temperature
        (readSensor drv type p.val (e.hw.last_temperature p) (e.hw.last_humidity p) e).humidity,
        (readSensor drv type p.val (e.hw.last_temperature p) (e.hw.last_humidity p) e).state) := by
  have hf := (readSensor_frame drv type p.val (e.hw.last_temperature p) (e.hw.last_humidity p)
    e).1
  rw [Read_three drv type htype p cb s, he, worker_Read drv type htype p e, ReadSync.loop]
  simp only [hok, ↓reduceIte, ReadWorker.HandleOKCallback, hf, ne_eq, not_true_eq_false,
    decide_False, Bool.false_eq_true]

theorem runCalls_cons_ok (c : ReadCall) (cs : List ReadCall) (s : State δ)
    (r : Outcome × State δ) (h : Read drv c.args s = .ok r) :
    runCalls drv (c :: cs) s = runCalls drv cs r.2 := by
  simp only [runCalls, h]

/-- The two-argument read that gets past the on-demand initialization is
the retry part of `ReadSync`, run on the variables `e` the initialization
leaves. -/
theorem Read_two_entry (type : Int) (htype : type = 11 ∨ type = 22) (p : Fin 32)
    (s e : State δ) (he : ReadWorker.Init drv s = e) (hready : e.initialized ≠ 0) :
    Read drv [.number type, .number (p.val : Int)] s = ReadSync.retry drv type (p.val : Int) e := by
  have hr : Read drv [.number type, .number (p.val : Int)] s =
      ReadSync drv [.number type, .number (p.val : Int)] s := rfl
  rw [hr, ReadSync_two drv type htype p s]
  unfold ReadWorker.Init at he
  by_cases h0 : s.initialized = 0
  · rw [if_pos h0] at he
    rw [if_pos h0, he, if_neg hready]
  · rw [if_neg h0] at he
    rw [if_neg h0, he]

/-- The rounding of a non-zero finite `double` whose rounded value is
below `2 ^ 128`, from its significand and exponent. -/
theorem toFloat_finite (m e : Int) (n : Nat) (q : Int) (hm : m ≠ 0)
    (hp : floatParts m.natAbs e = (n, q))
    (hr : ¬ (104 < q ∨ (q = 104 ∧ 16777216 ≤ n))) :
    toFloat (.finite m e) = .finite ((if m < 0 then -1 else 1) * (n : Rat) * 2 ^ q) := by
  simp only [toFloat, hp, if_neg hm, if_neg hr]

/-- 21.5 is a `float`: stored as it is. -/
theorem toFloat_21_5 : toFloat (.finite 43 (-1)) = .finite 21.5 :=
  (toFloat_finite 43 (-1) (43 * 2 ^ 18) (-19) (by decide) (by decide) (by decide)).trans
    (by norm_num)

/-- 60 is a `float`: stored as it is. -/
theorem toFloat_60 : toFloat (.finite 60 0) = .finite 60 :=
  (toFloat_finite 60 0 (60 * 2 ^ 18) (-18) (by decide) (by decide) (by decide)).trans
    (by norm_num)

/-- The `double` nearest to 0.1 is stored as 13421773 / 2 ^ 27. -/
theorem toFloat_tenth :
    toFloat (.finite 3602879701896397 (-55)) = .finite (13421773 / 134217728) :=
  (toFloat_finite 3602879701896397 (-55) 13421773 (-27) (by decide) (by decide)
    (by decide)).trans (by norm_num)

/-- 16777217 = 2 ^ 24 + 1 is stored as 16777216. -/
theorem toFloat_16777217 : toFloat (.finite 16777217 0) = .finite 16777216 :=
  (toFloat_finite 16777217 0 8388608 1 (by decide) (by decide) (by decide)).trans
    (by norm_num)

/-- The two-argument read with the hardware initialized and the fake
override on. -/
theorem Read_two_fake (type : Int) (htype : type = 11 ∨ type = 22) (p : Fin 32)
    (s : State δ) (hinit : s.initialized ≠ 0) (hfake : s._test_fake_enabled = true) :
    Read drv [.number type, .number (p.val : Int)] s =
      .ok (.readout s._fake_temperature s._fake_humidity true 0,
        { s with log := { s.log with readSensor := s.log.readSensor + 1 } }) := by
  have hi : ReadWorker.Init drv s = s := by
    simp only [ReadWorker.Init, if_neg hinit]
  rw [Read_two_entry drv type htype p s s hi hinit, retry_fake drv type p s hfake]

end Lemmas


section Claims

variable {δ : Type}

/-- C1: with `_max_retries = n`, a supported sensor type and a pin of the
per-pin arrays, when the first `k ≤ n` transactions of the retry loop fail
and transaction `k + 1` succeeds, `ReadSync` returns the temperature and
humidity of that transaction with `isValid = true` and `errors = k`, after
exactly `k + 1` calls of `readSensor`. The loop is entered from `e`: by the
two-argument form with the hardware initialized, by the two-argument form
after a successful on-demand bring-up, and by the zero-argument form. -/
theorem ReadSync_succeeds_after_k_failures (drv : Driver δ) (e : State δ) (type : Int)
    (p : Fin 32) (n k : Nat)
    (htype : type = 11 ∨ type = 22)
    (hn : e._max_retries = (n : Int)) (hmax : n < 2147483648) (hk : k ≤ n)
    (hfail : ∀ i, i < k →
      toInt (attempt drv type p.val i (e.hw.last_temperature p) (e.hw.last_humidity p) e).status
        ≠ 0)
    (hok :
      toInt (attempt drv type p.val k (e.hw.last_temperature p) (e.hw.last_humidity p) e).status
        = 0) :
    let last := attempt drv type p.val k (e.hw.last_temperature p) (e.hw.last_humidity p) e
    (e.initialized ≠ 0 →
      ReadSync drv [.number type, .number (p.val : Int)] e =
        .ok (.readout last.temperature last.humidity true (k : Int), last.state)) ∧
    (∀ s : State δ, s.initialized = 0 → bringUp drv s = e → e.initialized ≠ 0 →
      ReadSync drv [.number type, .number (p.val : Int)] s =
        .ok (.readout last.temperature last.humidity true (k : Int), last.state)) ∧
    (e._sensor_type = type → e._gpio_pin = (p.val : Int) →
      ReadSync drv [] e =
        .ok (.readout last.temperature last.humidity true (k : Int), last.state)) ∧
    last.state.log.readSensor = e.log.readSensor + (k + 1) := by
  intro last
  have hloop := loop_succeeds drv type p.val k e._max_retries (e.hw.last_temperature p)
    (e.hw.last_humidity p) e (by omega) (by omega) hfail hok
  have hmr : last.state._max_retries = e._max_retries := (attempt_frame drv type p.val k _ _ e).2.2.2.1
  have hretry : ReadSync.retry drv type (p.val : Int) e =
      .ok (.readout last.temperature last.humidity true (k : Int), last.state) := by
    rw [retry_fin, hloop]
    have he : toInt (last.state._max_retries - (e._max_retries - (k : Int))) = (k : Int) := by
      rw [hmr, hn]
      exact (congrArg toInt (by ring)).trans (toInt_of_range _ (by omega) (by omega))
    simp only [decide_True, he]
  refine ⟨?_, ?_, ?_, (attempt_frame drv type p.val k _ _ e).2.2.2.2.2.2.2.2⟩
  · intro hinit
    rw [ReadSync_two drv type htype p e, if_neg hinit, hretry]
  · intro s hs hb hinit
    rw [ReadSync_two drv type htype p s, if_pos hs, hb, if_neg hinit, hretry]
  · intro ht hp
    have : ReadSync drv [] e = ReadSync.retry drv e._sensor_type e._gpio_pin e := by
      simp [ReadSync]
    rw [this, ht, hp, hretry]

/-- Witness for C1, the scenario of the specification: three retries
allowed, the first two transactions fail, the third reads 22.0 / 55.0. The
read starts from the initial variables and brings the hardware up on
demand. -/
theorem ReadSync_succeeds_after_k_failures_witness :
    ∃ st : State (Nat × Nat),
      ReadSync mockDriver [.number 11, .number 4] (State.initial (Hw.zero (2, 0))) =
        .ok (.readout (.finite 22) (.finite 55) true 2, st) ∧ st.log.readSensor = 3 := by
  have h := ReadSync_succeeds_after_k_failures mockDriver
    (bringUp mockDriver (State.initial (Hw.zero (2, 0)))) 11 (4 : Fin 32) 3 2
    (Or.inl rfl) rfl (by decide) (by decide)
    (by intro i hi; interval_cases i <;> decide) (by decide)
  exact ⟨_, h.2.1 (State.initial (Hw.zero (2, 0))) rfl rfl (by decide), by decide⟩

/-- C2 as stated fails at the largest `int`: with `_max_retries =
2147483647` and a transaction that always fails and leaves its outputs
alone, `_max_retries - retry` is `2147483647 - (-1)`, which does not fit
an `int`; with two's complement wrap-around the readout carries `errors =
-2147483648`, not `n + 1`. The variables are reached from the initial ones
through `initialize` with an empty test block and `setMaxRetries`. -/
theorem ReadSync_always_failing_counterexample :
    let s0 : State Unit :=
      (SetMaxRetries [.number 2147483647]
        (Initialize failingDriver [.object ⟨some ⟨none⟩⟩] (State.initial (Hw.zero ()))).2).2
    s0._max_retries = 2147483647 ∧
    (∀ i, toInt (attempt failingDriver 11 4 i (.finite 0) (.finite 0) s0).status ≠ 0 ∧
      (attempt failingDriver 11 4 i (.finite 0) (.finite 0) s0).temperature = .finite 0 ∧
      (attempt failingDriver 11 4 i (.finite 0) (.finite 0) s0).humidity = .finite 0) ∧
    ∃ st, ReadSync failingDriver [.number 11, .number 4] s0 =
      .ok (.readout (.finite 0) (.finite 0) false (-2147483648), st) := by
  intro s0
  have hfake : s0._test_fake_enabled = false := rfl
  have hatt := fun i => failingDriver_attempt 11 4 i (.finite 0) (.finite 0) s0 hfake
  refine ⟨rfl, fun i => ⟨by rw [(hatt i).1]; decide, (hatt i).2.1, (hatt i).2.2⟩, ?_⟩
  have h2 := ReadSync_two failingDriver 11 (Or.inl rfl) (4 : Fin 32) s0
  have hinit : s0.initialized ≠ 0 := by decide
  rw [if_neg hinit, retry_fin] at h2
  have e1 : s0.hw.last_temperature (4 : Fin 32) = .finite 0 := rfl
  have e2 : s0.hw.last_humidity (4 : Fin 32) = .finite 0 := rfl
  have e3 : s0._max_retries = ((2147483647 : Nat) : Int) := rfl
  have e4 : (((4 : Fin 32).val : Nat) : Int) = 4 := rfl
  rw [e1, e2, e3, e4] at h2
  obtain ⟨l1, l2, l3, l4, l5⟩ :=
    failingDriver_loop 11 4 2147483647 (.finite 0) (.finite 0) s0 hfake (by decide)
  rw [l1, l2, l3, l4, l5, e3] at h2
  exact ⟨_, h2⟩

/-- C2, amended to `n + 1` fitting an `int`: with `_max_retries = n`,
`n < 2147483647`, a supported sensor type and a pin of the per-pin arrays,
when every transaction of the retry loop fails and hands back the
temperature and humidity it was given (so each returns the values seeded
from the arrays), `ReadSync` returns those cached values with `isValid =
false` and `errors = n + 1`, after exactly `n + 1` calls of `readSensor`.
The loop is entered from `e` as in C1. -/
theorem ReadSync_always_failing (drv : Driver δ) (e : State δ) (type : Int) (p : Fin 32)
    (n : Nat) (htype : type = 11 ∨ type = 22)
    (hn : e._max_retries = (n : Int)) (hmax : n < 2147483647)
    (hfail : ∀ i, i ≤ n →
      toInt (attempt drv type p.val i (e.hw.last_temperature p) (e.hw.last_humidity p) e).status
        ≠ 0 ∧
      (attempt drv type p.val i (e.hw.last_temperature p) (e.hw.last_humidity p) e).temperature
        = e.hw.last_temperature p ∧
      (attempt drv type p.val i (e.hw.last_temperature p) (e.hw.last_humidity p) e).humidity
        = e.hw.last_humidity p) :
    let last := attempt drv type p.val n (e.hw.last_temperature p) (e.hw.last_humidity p) e
    (e.initialized ≠ 0 →
      ReadSync drv [.number type, .number (p.val : Int)] e =
        .ok (.readout (e.hw.last_temperature p) (e.hw.last_humidity p) false ((n : Int) + 1),
          last.state)) ∧
    (∀ s : State δ, s.initialized = 0 → bringUp drv s = e → e.initialized ≠ 0 →
      ReadSync drv [.number type, .number (p.val : Int)] s =
        .ok (.readout (e.hw.last_temperature p) (e.hw.last_humidity p) false ((n : Int) + 1),
          last.state)) ∧
    (e._sensor_type = type → e._gpio_pin = (p.val : Int) →
      ReadSync drv [] e =
        .ok (.readout (e.hw.last_temperature p) (e.hw.last_humidity p) false ((n : Int) + 1),
          last.state)) ∧
    last.state.log.readSensor = e.log.readSensor + (n + 1) := by
  intro last
  have hloop := loop_exhausts drv type p.val n (e.hw.last_temperature p)
    (e.hw.last_humidity p) e (by omega) (fun i hi => (hfail i hi).1)
  have hmr : last.state._max_retries = e._max_retries :=
    (attempt_frame drv type p.val n _ _ e).2.2.2.1
  have hlast := hfail n (le_refl n)
  have hretry : ReadSync.retry drv type (p.val : Int) e =
      .ok (.readout (e.hw.last_temperature p) (e.hw.last_humidity p) false ((n : Int) + 1),
        last.state) := by
    rw [← hn] at hloop
    rw [retry_fin, hloop]
    have he : toInt (last.state._max_retries - (-1)) = (n : Int) + 1 := by
      rw [hmr, hn]
      exact (congrArg toInt (by ring)).trans (toInt_of_range _ (by omega) (by omega))
    simp only [he, hlast.1, decide_False, hlast.2.1, hlast.2.2]
  refine ⟨?_, ?_, ?_, (attempt_frame drv type p.val n _ _ e).2.2.2.2.2.2.2.2⟩
  · intro hinit
    rw [ReadSync_two drv type htype p e, if_neg hinit, hretry]
  · intro s hs hb hinit
    rw [ReadSync_two drv type htype p s, if_pos hs, hb, if_neg hinit, hretry]
  · intro ht hp
    have : ReadSync drv [] e = ReadSync.retry drv e._sensor_type e._gpio_pin e := by
      simp [ReadSync]
    rw [this, ht, hp, hretry]

/-- Witness for C2, the scenario of the specification: two retries allowed
and a transaction that always fails give `errors = 3`, `isValid = false`
and the cached values of the pin. -/
theorem ReadSync_always_failing_witness :
    ∃ st : State Unit,
      ReadSync failingDriver [.number 22, .number 7]
          { State.initial (Hw.zero ()) with initialized := 1, _max_retries := 2 } =
        .ok (.readout (.finite 0) (.finite 0) false 3, st) ∧ st.log.readSensor = 3 := by
  have h := ReadSync_always_failing failingDriver
    { State.initial (Hw.zero ()) with initialized := 1, _max_retries := 2 } 22 (7 : Fin 32) 2
    (Or.inr rfl) rfl (by decide)
    (by intro i hi; interval_cases i <;> decide)
  exact ⟨_, h.1 (by decide), by decide⟩

/-- C3 as stated fails for fake values that are not `float` values: with
the `double` nearest to 0.1 as temperature and 16777217 as humidity,
`read(11, 4)` returns 13421773 / 2 ^ 27 (0.100000001490116...) and
16777216, the values after rounding to `float`, not the configured
ones. -/
theorem Read_fake_override_counterexample :
    let t : Double := .finite 3602879701896397 (-55)
    let h : Double := .finite 16777217 0
    let s1 : State (Nat × Nat) :=
      (Initialize mockDriver [.object ⟨some ⟨some ⟨some t, some h⟩⟩⟩]
        (State.initial (Hw.zero (0, 0)))).2
    (∃ st, Read mockDriver [.number 11, .number 4] s1 =
      .ok (.readout (.finite (13421773 / 134217728)) (.finite 16777216) true 0, st)) ∧
    t.value ≠ .finite (13421773 / 134217728) ∧ h.value ≠ .finite 16777216 := by
  intro t h s1
  have h1 := Read_two_fake mockDriver 11 (Or.inl rfl) (4 : Fin 32) s1 (by decide) rfl
  have e1 : s1._fake_temperature = .finite (13421773 / 134217728) := toFloat_tenth
  have e2 : s1._fake_humidity = .finite 16777216 := toFloat_16777217
  rw [e1, e2] at h1
  refine ⟨⟨_, h1⟩, ?_, ?_⟩
  · simp only [Double.value, t, ne_eq, Reading.finite.injEq]
    norm_num
  · simp only [Double.value, h, ne_eq, Reading.finite.injEq]
    norm_num

/-- C3, amended: after `initialize` was called with a test block that
carries the fake values `t` and `h`, whatever the variables were before
and whatever `setMaxRetries` stores afterwards, `read` on a supported
sensor type and a pin of the per-pin arrays returns `t` and `h` as rounded
to `float` when they were stored, with `isValid = true` and `errors = 0`
(two arguments), hands them with a null error to the completion handler
(three arguments), and in both cases `readDHT` and the bring-up are not
called: the variables change only by one counted call of `readSensor`.
When `t` and `h` are `float` values (rounding leaves them as they are),
the values returned are `t` and `h` themselves. -/
theorem Read_fake_override (drv : Driver δ) (s : State δ) (t h : Double) (m cb : JsValue)
    (type : Int) (p : Fin 32) (htype : type = 11 ∨ type = 22) :
    let s1 := (Initialize drv [.object ⟨some ⟨some ⟨some t, some h⟩⟩⟩] s).2
    let s2 := (SetMaxRetries [m] s1).2
    let s3 : State δ := { s2 with log := { s2.log with readSensor := s2.log.readSensor + 1 } }
    Read drv [.number type, .number (p.val : Int)] s2 =
      .ok (.readout (toFloat t) (toFloat h) true 0, s3) ∧
    Read drv [.number type, .number (p.val : Int), cb] s2 =
      .ok (.callback none (toFloat t) (toFloat h), s3) ∧
    s3.log.readDHT = s.log.readDHT ∧ s3.log.initializeHw = s.log.initializeHw ∧
    (toFloat t = t.value → toFloat h = h.value →
      Read drv [.number type, .number (p.val : Int)] s2 =
        .ok (.readout t.value h.value true 0, s3) ∧
      Read drv [.number type, .number (p.val : Int), cb] s2 =
        .ok (.callback none t.value h.value, s3)) := by
  intro s1 s2 s3
  have hfake : s2._test_fake_enabled = true := rfl
  have hinit : s2.initialized ≠ 0 := by
    show (1 : Int) ≠ 0
    decide
  have ht : s2._fake_temperature = toFloat t := rfl
  have hh : s2._fake_humidity = toFloat h := rfl
  have h2 : Read drv [.number type, .number (p.val : Int)] s2 =
      .ok (.readout (toFloat t) (toFloat h) true 0, s3) :=
    Read_two_fake drv type htype p s2 hinit hfake
  have h3 : Read drv [.number type, .number (p.val : Int), cb] s2 =
      .ok (.callback none (toFloat t) (toFloat h), s3) := by
    rw [Read_three drv type htype p cb s2]
    have hi : ReadWorker.Init drv s2 = s2 := by
      simp only [ReadWorker.Init, if_neg hinit]
    rw [hi, worker_Read drv type htype p s2]
    have hr := retry_fake drv type p s2 hfake
    rw [retry_fin] at hr
    injection hr with hr
    injection hr with hr1 hr2
    injection hr1 with q1 q2 q3 q4
    simp only [decide_eq_true_eq] at q3
    simp only [hr2, q1, q2, q3, ReadWorker.HandleOKCallback]
    simp [s3, hinit, ht, hh]
  refine ⟨h2, h3, rfl, rfl, fun e1 e2 => ?_⟩
  rw [← e1, ← e2]
  exact ⟨h2, h3⟩

/-- Witness for C3, the scenario of the specification: configure with the
fake values 21.5 and 60 (both `float` values), set seven retries, then
`read(11, 4)`. -/
theorem Read_fake_override_witness :
    toFloat (.finite 43 (-1)) = Double.value (.finite 43 (-1)) ∧
    toFloat (.finite 60 0) = Double.value (.finite 60 0) ∧
    Double.value (.finite 43 (-1)) = .finite 21.5 ∧ Double.value (.finite 60 0) = .finite 60 ∧
    ∃ st : State (Nat × Nat),
      Read mockDriver [.number 11, .number 4]
          (SetMaxRetries [.number 7]
            (Initialize mockDriver
              [.object ⟨some ⟨some ⟨some (.finite 43 (-1)), some (.finite 60 0)⟩⟩⟩]
              (State.initial (Hw.zero (5, 5)))).2).2 =
        .ok (.readout (Double.value (.finite 43 (-1))) (Double.value (.finite 60 0)) true 0, st) ∧
      st.log.readDHT = 0 := by
  have v1 : Double.value (.finite 43 (-1)) = .finite 21.5 := by
    simp only [Double.value, Reading.finite.injEq]
    norm_num
  have v2 : Double.value (.finite 60 0) = .finite 60 := by
    simp only [Double.value, Reading.finite.injEq]
    norm_num
  have f1 : toFloat (.finite 43 (-1)) = Double.value (.finite 43 (-1)) := toFloat_21_5.trans v1.symm
  have f2 : toFloat (.finite 60 0) = Double.value (.finite 60 0) := toFloat_60.trans v2.symm
  exact ⟨f1, f2, v1, v2, _,
    ((Read_fake_override mockDriver (State.initial (Hw.zero (5, 5))) (.finite 43 (-1))
      (.finite 60 0) (.number 7) .function 11 (4 : Fin 32) (Or.inl rfl)).2.2.2.2 f1 f2).1, rfl⟩

/-- C4: when the first argument converts to an `int` other than 11 and 22,
whatever the pin argument, `_max_retries` and `initialized` are, the
two-argument read throws "specified sensor type is invalid" and leaves
every variable and counter as it was, and the three-argument read hands
the error "sensor type is invalid" to the completion handler after the
worker's `Init` alone; in both `readSensor` and `readDHT` are never
called. -/
theorem Read_invalid_sensor_type (drv : Driver δ) (s : State δ) (a0 a1 cb : JsValue)
    (h11 : ToInt32 a0 ≠ 11) (h22 : ToInt32 a0 ≠ 22) :
    Read drv [a0, a1] s = .ok (.throwTypeError "specified sensor type is invalid", s) ∧
    Read drv [a0, a1, cb] s =
      .ok (.callbackError "sensor type is invalid", ReadWorker.Init drv s) ∧
    (ReadWorker.Init drv s).log.readSensor = s.log.readSensor ∧
    (ReadWorker.Init drv s).log.readDHT = s.log.readDHT := by
  have hc : ToInt32 a0 ≠ 11 ∧ ToInt32 a0 ≠ 22 := ⟨h11, h22⟩
  refine ⟨?_, ?_, ?_, ?_⟩
  · have hr : Read drv [a0, a1] s = ReadSync drv [a0, a1] s := rfl
    rw [hr]
    simp only [ReadSync, arg, List.length_cons, List.length_nil, List.get?, Option.getD,
      toInt_Uint32Value, ↓reduceIte]
    rw [if_pos hc]
  · have hr : Read drv [a0, a1, cb] s = ReadAsync drv [a0, a1, cb] s := rfl
    rw [hr]
    simp only [ReadAsync, ReadWorker.Execute, ReadWorker.Read, ReadWorker.new, arg,
      List.get?, Option.getD]
    rw [if_pos hc]
  · unfold ReadWorker.Init bringUp
    split <;> rfl
  · unfold ReadWorker.Init bringUp
    split <;> rfl

/-- Witness for C4, the scenario of the specification: sensor type 99, on
variables whose hardware is not initialized. -/
theorem Read_invalid_sensor_type_witness :
    Read mockDriver [.number 99, .number 4, .function] (State.initial (Hw.zero (0, 1))) =
      .ok (.callbackError "sensor type is invalid",
        ReadWorker.Init mockDriver (State.initial (Hw.zero (0, 1)))) ∧
    (ReadWorker.Init mockDriver (State.initial (Hw.zero (0, 1)))).log.readSensor = 0 :=
  ⟨(Read_invalid_sensor_type mockDriver (State.initial (Hw.zero (0, 1))) (.number 99) (.number 4)
    .function (by decide) (by decide)).2.1, rfl⟩

/-- C5: for a read call `c` (two-argument or three-argument form) made on
the variables `s` and any sequence `cs` of read calls made after it:
(1) if the flag `initialized` is set when `c` starts, `c` does not call the
bring-up and leaves the flag as it is; (2) if the flag is clear, `c` calls
the bring-up at most once, and the flag is set afterwards exactly when the
bring-up ran and returned 0, so a failed bring-up leaves it clear for the
next call; (3) once the flag is set after `c`, none of the calls of `cs`
calls the bring-up and the flag stays set. -/
theorem bring_up_only_until_it_succeeds (drv : Driver δ) (c : ReadCall) (cs : List ReadCall)
    (s : State δ) (r : Outcome × State δ) (s2 : State δ)
    (h1 : Read drv c.args s = .ok r) (h2 : runCalls drv cs r.2 = .ok s2) :
    (s.initialized ≠ 0 →
      r.2.log.initializeHw = s.log.initializeHw ∧ r.2.initialized = s.initialized) ∧
    (s.initialized = 0 →
      (r.2.log.initializeHw = s.log.initializeHw ∧ r.2.initialized = 0) ∨
      (r.2.log.initializeHw = s.log.initializeHw + 1 ∧
        (r.2.initialized ≠ 0 ↔ (drv.initializeHw s.hw).1 = 0))) ∧
    (r.2.initialized ≠ 0 →
      s2.log.initializeHw = r.2.log.initializeHw ∧ s2.initialized ≠ 0) := by
  have hc := call_frame drv c s r h1
  refine ⟨hc.1, fun hz => ?_, fun hr => ?_⟩
  · rcases hc.2 hz with h | h
    · exact Or.inl h
    · refine Or.inr ⟨h.1, ?_⟩
      rw [h.2]
      split <;> simp [*]
  · have := runCalls_frame drv cs r.2 s2 hr h2
    exact ⟨this.1, by rw [this.2]; exact hr⟩

/-- Witness for C5: a first bring-up has failed (one call counted, flag
clear). The next read, a three-argument one, brings the hardware up; the
two reads after it call no bring-up, and the counter stays at 2. -/
theorem bring_up_only_until_it_succeeds_witness :
    ∃ (r : Outcome × State (Nat × Nat)) (s2 : State (Nat × Nat)),
      (bringUp mockDriver (State.initial (Hw.zero (0, 1)))).initialized = 0 ∧
      Read mockDriver (ReadCall.async (.number 11) (.number 4) .function).args
        (bringUp mockDriver (State.initial (Hw.zero (0, 1)))) = .ok r ∧
      runCalls mockDriver
        [.sync (.number 22) (.number 4), .async (.number 11) (.number 5) .function] r.2
        = .ok s2 ∧
      r.2.initialized = 1 ∧ r.2.log.initializeHw = 2 ∧
      s2.log.initializeHw = r.2.log.initializeHw ∧ s2.initialized ≠ 0 := by
  have h1 := Read_three_first_ok mockDriver 11 (Or.inl rfl) (4 : Fin 32) .function
    (bringUp mockDriver (State.initial (Hw.zero (0, 1)))) _ rfl (by decide)
  have h2 := Read_two_first_ok mockDriver 22 (Or.inr rfl) (4 : Fin 32)
    (readSensor mockDriver 11 4 (.finite 0) (.finite 0)
      (ReadWorker.Init mockDriver (bringUp mockDriver (State.initial (Hw.zero (0, 1)))))).state
    (by decide) (by decide)
  have h3 := Read_three_first_ok mockDriver 11 (Or.inl rfl) (5 : Fin 32) .function
    (readSensor mockDriver 22 4 (.finite 22) (.finite 55)
      (readSensor mockDriver 11 4 (.finite 0) (.finite 0)
        (ReadWorker.Init mockDriver
          (bringUp mockDriver (State.initial (Hw.zero (0, 1)))))).state).state
    _ rfl (by decide)
  have h4 := (runCalls_cons_ok mockDriver (.sync (.number 22) (.number 4))
    [.async (.number 11) (.number 5) .function] _ _ h2).trans
    ((runCalls_cons_ok mockDriver (.async (.number 11) (.number 5) .function) [] _ _ h3).trans
      rfl)
  exact ⟨_, _, rfl, h1, h4, rfl, rfl,
    (bring_up_only_until_it_succeeds mockDriver
      (.async (.number 11) (.number 4) .function)
      [.sync (.number 22) (.number 4), .async (.number 11) (.number 5) .function]
      _ _ _ h1 h4).2.2 (by decide)⟩

/-- C6 as stated fails: after `initialize` was called with the fake values
21.5 and 60, a second call with an options object that has no test block
leaves `_test_fake_enabled` set, and the next read still returns the fake
values without calling `readDHT`. -/
theorem Initialize_without_test_counterexample :
    let s1 : State (Nat × Nat) :=
      (Initialize mockDriver [.object ⟨some ⟨some ⟨some (.finite 43 (-1)), some (.finite 60 0)⟩⟩⟩]
        (State.initial (Hw.zero (0, 0)))).2
    let s2 := (Initialize mockDriver [.object ⟨none⟩] s1).2
    s2._test_fake_enabled = true ∧
    ∃ st, Read mockDriver [.number 11, .number 4] s2 =
        .ok (.readout (.finite 21.5) (.finite 60) true 0, st) ∧
      st.log.readDHT = 0 := by
  intro s1 s2
  have h1 := Read_two_fake mockDriver 11 (Or.inl rfl) (4 : Fin 32) s2 (by decide) rfl
  have e1 : s2._fake_temperature = .finite 21.5 := toFloat_21_5
  have e2 : s2._fake_humidity = .finite 60 := toFloat_60
  rw [e1, e2] at h1
  exact ⟨rfl, _, h1, rfl⟩

/-- C6, amended: `initialize` called with an options object that has no
test block throws nothing and changes none of the variables; the fake
override keeps the setting it had, so that a transaction after the call is
the same transaction as before it (it goes to `readDHT` if the override
was off, and returns the fake values if it was on). -/
theorem Initialize_without_test (drv : Driver δ) (s : State δ) (type pin : Int)
    (t h : Reading) :
    Initialize drv [.object ⟨none⟩] s = (⟨[], none⟩, s) ∧
    (Initialize drv [.object ⟨none⟩] s).2._test_fake_enabled = s._test_fake_enabled ∧
    readSensor drv type pin t h (Initialize drv [.object ⟨none⟩] s).2 =
      readSensor drv type pin t h s :=
  ⟨rfl, rfl, rfl⟩

/-- C7: for a three-argument read on a supported sensor type and a pin of
the per-pin arrays, the completion handler receives `(error, temperature,
humidity)` with the values of the last transaction of the retry loop
(transaction `k`, after which `k + 1` calls of `readSensor` are counted);
`error` is null exactly when `initialized` is set after the call and that
last transaction succeeded; it is "failed to initialize sensor" when
`initialized` is clear, and "failed to read sensor" when `initialized` is
set and the last transaction failed. -/
theorem ReadAsync_completion (drv : Driver δ) (s : State δ) (type : Int) (p : Fin 32)
    (cb : JsValue) (htype : type = 11 ∨ type = 22) :
    ∃ (k : Nat) (err : Option String),
      Read drv [.number type, .number (p.val : Int), cb] s =
        .ok (.callback err
          (attempt drv type p.val k ((ReadWorker.Init drv s).hw.last_temperature p)
            ((ReadWorker.Init drv s).hw.last_humidity p) (ReadWorker.Init drv s)).temperature
          (attempt drv type p.val k ((ReadWorker.Init drv s).hw.last_temperature p)
            ((ReadWorker.Init drv s).hw.last_humidity p) (ReadWorker.Init drv s)).humidity,
          (attempt drv type p.val k ((ReadWorker.Init drv s).hw.last_temperature p)
            ((ReadWorker.Init drv s).hw.last_humidity p) (ReadWorker.Init drv s)).state) ∧
      (attempt drv type p.val k ((ReadWorker.Init drv s).hw.last_temperature p)
        ((ReadWorker.Init drv s).hw.last_humidity p) (ReadWorker.Init drv s)).state.log.readSensor
        = s.log.readSensor + (k + 1) ∧
      (attempt drv type p.val k ((ReadWorker.Init drv s).hw.last_temperature p)
        ((ReadWorker.Init drv s).hw.last_humidity p) (ReadWorker.Init drv s)).state.initialized
        = (ReadWorker.Init drv s).initialized ∧
      (err = none ↔
        (ReadWorker.Init drv s).initialized ≠ 0 ∧
        toInt (attempt drv type p.val k ((ReadWorker.Init drv s).hw.last_temperature p)
          ((ReadWorker.Init drv s).hw.last_humidity p) (ReadWorker.Init drv s)).status = 0) ∧
      ((ReadWorker.Init drv s).initialized = 0 → err = some "failed to initialize sensor") ∧
      ((ReadWorker.Init drv s).initialized ≠ 0 →
        toInt (attempt drv type p.val k ((ReadWorker.Init drv s).hw.last_temperature p)
          ((ReadWorker.Init drv s).hw.last_humidity p) (ReadWorker.Init drv s)).status ≠ 0 →
        err = some "failed to read sensor") := by
  obtain ⟨k, _, e1, e2, e3, e4⟩ := loop_ends drv type p.val
    ((ReadWorker.Init drv s).hw.last_temperature p) ((ReadWorker.Init drv s).hw.last_humidity p)
    (ReadWorker.Init drv s)._max_retries (ReadWorker.Init drv s)
  have hf := attempt_frame drv type p.val k ((ReadWorker.Init drv s).hw.last_temperature p)
    ((ReadWorker.Init drv s).hw.last_humidity p) (ReadWorker.Init drv s)
  have hcount : (ReadWorker.Init drv s).log.readSensor = s.log.readSensor := by
    unfold ReadWorker.Init bringUp
    split <;> rfl
  refine ⟨k,
    (if (ReadWorker.Init drv s).initialized = 0 then some "failed to initialize sensor"
     else if toInt (attempt drv type p.val k ((ReadWorker.Init drv s).hw.last_temperature p)
        ((ReadWorker.Init drv s).hw.last_humidity p) (ReadWorker.Init drv s)).status = 0
       then none
     else some "failed to read sensor"),
    ?_, by rw [hf.2.2.2.2.2.2.2.2, hcount], hf.1, ?_, ?_, ?_⟩
  · rw [Read_three drv type htype p cb s, worker_Read drv type htype p (ReadWorker.Init drv s)]
    simp only [ReadWorker.HandleOKCallback, e1, e2, e3, e4, hf.1]
    by_cases hi : (ReadWorker.Init drv s).initialized = 0 <;>
      by_cases hs : toInt (attempt drv type p.val k ((ReadWorker.Init drv s).hw.last_temperature p)
        ((ReadWorker.Init drv s).hw.last_humidity p) (ReadWorker.Init drv s)).status = 0 <;>
      simp [hi, hs]
  · by_cases hi : (ReadWorker.Init drv s).initialized = 0 <;>
      by_cases hs : toInt (attempt drv type p.val k ((ReadWorker.Init drv s).hw.last_temperature p)
        ((ReadWorker.Init drv s).hw.last_humidity p) (ReadWorker.Init drv s)).status = 0 <;>
      simp [hi, hs]
  · intro hi
    simp [hi]
  · intro hi hs
    simp [hi, hs]

/-- Witness for C7: the bring-up fails, the worker still runs the loop, and
the handler receives "failed to initialize sensor". -/
theorem ReadAsync_completion_witness :
    ∃ (t h : Reading) (st : State (Nat × Nat)),
      Read mockDriver [.number 22, .number 4, .function] (State.initial (Hw.zero (1, 1))) =
        .ok (.callback (some "failed to initialize sensor") t h, st) := by
  obtain ⟨k, err, h1, _, _, _, h5, _⟩ := ReadAsync_completion mockDriver
    (State.initial (Hw.zero (1, 1))) 22 (4 : Fin 32) .function (Or.inr rfl)
  rw [h5 (by decide)] at h1
  exact ⟨_, _, _, h1⟩

/-- C9 fails on the code, which does not validate the pin (line 110 leaves
it as a TODO): the legacy form of `initialize` stores pin 100 in
`_gpio_pin`, and the zero-argument read that follows subscripts the
32-element arrays with 100; `read(11, 32)` subscripts them with 32; the
three-argument read with pin -1 subscripts them with -1. -/
theorem gpio_pin_not_validated :
    (Initialize failingDriver [.number 11, .number 100]
      (State.initial (Hw.zero ()))).2._gpio_pin = 100 ∧
    Read failingDriver []
        (Initialize failingDriver [.number 11, .number 100] (State.initial (Hw.zero ()))).2
      = .error (.indexOutOfRange 100) ∧
    Read failingDriver [.number 11, .number 32] (State.initial (Hw.zero ()))
      = .error (.indexOutOfRange 32) ∧
    Read failingDriver [.number 11, .number (-1), .function] (State.initial (Hw.zero ()))
      = .error (.indexOutOfRange (-1)) :=
  ⟨rfl, rfl, rfl, rfl⟩

/-- C10: on a supported sensor type and a pin of the per-pin arrays, with
the hardware initialized, whatever the driver, the arrays and
`_max_retries` are, the worker of the asynchronous read (`Execute`) and
`ReadSync` end in the same variables and counters (so they made the same
number of calls of `readSensor` and `readDHT` and the same number of
waits), with the same temperature and humidity, and the worker's `failed`
is the negation of the readout's `isValid`. -/
theorem async_read_does_the_work_of_sync (drv : Driver δ) (s : State δ) (type : Int)
    (p : Fin 32) (htype : type = 11 ∨ type = 22) (hinit : s.initialized ≠ 0) :
    ∃ (t h : Reading) (v : Bool) (n : Int) (st : State δ),
      ReadSync drv [.number type, .number (p.val : Int)] s = .ok (.readout t h v n, st) ∧
      ReadWorker.Execute drv (ReadWorker.new type (p.val : Int)) s =
        .ok ({ sensor_type := type, gpio_pin := (p.val : Int), failed := !v, temperature := t,
               humidity := h, errmsg := none }, st) := by
  have hi : ReadWorker.Init drv s = s := by
    simp only [ReadWorker.Init, if_neg hinit]
  have h2 := (ReadSync_two drv type htype p s).trans
    ((if_neg hinit).trans (retry_fin drv type p s))
  refine ⟨_, _, _, _, _, h2, ?_⟩
  rw [ReadWorker.Execute, hi, worker_Read drv type htype p s]
  simp

/-- Witness for C10: the driver fails twice and then reads 22.0 / 55.0,
with three retries allowed. -/
theorem async_read_does_the_work_of_sync_witness :
    ∃ (t h : Reading) (v : Bool) (n : Int) (st : State (Nat × Nat)),
      ReadSync mockDriver [.number 11, .number 4]
          { State.initial (Hw.zero (2, 0)) with initialized := 1 } = .ok (.readout t h v n, st) ∧
      ReadWorker.Execute mockDriver (ReadWorker.new 11 4)
          { State.initial (Hw.zero (2, 0)) with initialized := 1 } =
        .ok ({ sensor_type := 11, gpio_pin := 4, failed := !v, temperature := t,
               humidity := h, errmsg := none }, st) :=
  async_read_does_the_work_of_sync mockDriver
    { State.initial (Hw.zero (2, 0)) with initialized := 1 } 11 (4 : Fin 32) (Or.inl rfl)
    (by decide)

end Claims

end DhtSensor
